import Mathlib

/-!
Verification development for the coinglass-proxy repository.

The repository contains several near-duplicate drafts of two programs: a
polling monitor (monitor.js and variants) and a small HTTP proxy
(server.js and variants).  The definitions below are shallow embeddings,
translated directly from the JavaScript sources:

- JVal models a parsed JSON value (the result of JSON.parse).
- Monitor.fetchWithRetry embeds fetchWithRetry of src/monitor.js
  (lines 240-269 of the second draft in that file), instrumented with the
  list of backoff sleeps performed and the number of upstream calls made.
- Monitor.dedupeAllowed, Monitor.incrConsec, Monitor.resetConsec,
  Monitor.handleErrorResponse and Monitor.checkFunding embed the alert
  deduplicator, the consecutive-failure counters and the polling step of
  the same file.
- Part002.fundingHandler embeds the GET /funding route handler of
  src/unnamed/part_002.
- Part001.getCache and Part001.setCache embed the TTL cache of
  src/unnamed/part_001 and src/unnamed/part_008.
- ServerJs models the express route dispatch of src/server.js, and
  Part000 the explicit routes of src/unnamed/part_000.

Timestamps are modelled as integers (milliseconds, as produced by
Date.now) where a subtraction may matter, and as naturals elsewhere.
JavaScript Map objects are modelled as functions into Option.
-/

/-- JVal is a parsed JSON value, the result of a successful JSON.parse. -/
inductive JVal : Type where
  | jnull : JVal
  | jbool : Bool → JVal
  | jnum : Int → JVal
  | jstr : String → JVal
  | jarr : List JVal → JVal
  | jobj : List (String × JVal) → JVal

namespace Monitor

/-- UpResp is one upstream HTTP response as monitor.js observes it: the
status, the body text, and the result of the attempted JSON.parse of that
text (none when parsing throws, mirroring the inner try/catch). -/
structure UpResp : Type where
  status : Nat
  json : Option JVal
  text : String

/-- UpOutcome is the outcome of one awaited fetch call: either a resolved
response or a thrown error (network failure, timeout, body-read failure). -/
inductive UpOutcome : Type where
  | resp : UpResp → UpOutcome
  | thrown : String → UpOutcome

/-- FetchResult is the object fetchWithRetry of monitor.js returns: fields
ok, status, data, rawText and error, with absent fields as none. -/
structure FetchResult : Type where
  ok : Bool
  status : Nat
  data : Option JVal
  rawText : Option String
  error : Option String

/-- RetryTrace is the instrumented outcome of a fetchWithRetry run: the
returned value (none models the undefined returned when the while loop
never runs), the backoff sleeps awaited in order, and how many upstream
calls were made. -/
structure RetryTrace : Type where
  result : Option FetchResult
  sleeps : List Nat
  calls : Nat

/-- respOk is the node-fetch Response.ok flag: status in the range 200-299. -/
def respOk (s : Nat) : Bool :=
  decide (200 ≤ s) && decide (s < 300)

/-- tryCatchE mirrors a JavaScript try/catch around an awaited expression:
the handler receives the thrown value, otherwise the rest of the body runs. -/
def tryCatchE (x : Except String α) (handler : String → β) (body : α → β) : β :=
  match x with
  | Except.error e => handler e
  | Except.ok a => body a

/-- attemptCall models the awaited fetch plus body read of one attempt:
a thrown outcome becomes a raised exception, a response resolves normally. -/
def attemptCall (o : UpOutcome) : Except String UpResp :=
  match o with
  | UpOutcome.thrown e => Except.error e
  | UpOutcome.resp r => Except.ok r

/-- fetchGo is the while loop of fetchWithRetry in monitor.js.  The loop
state is the number of iterations still permitted (attemptsLeft, so the
JavaScript condition attempt < tries is 0 < left after this iteration),
the number of attempts already made, the current backoff, and the sleeps
performed so far.  The whole run lives in Except to model exception
propagation; every branch of the loop body is wrapped by the try/catch of
the source.  On success it returns ok with data json or else the raw text;
on a terminal non-ok status it returns the parsed body and raw text; when
the throw path exhausts the budget it returns status 0 with the error. -/
def fetchGo (upstream : Nat → UpOutcome) (attemptsLeft : Nat) (attemptNo : Nat)
    (backoff : Nat) (sleeps : List Nat) : Except String RetryTrace :=
  match attemptsLeft with
  | 0 => Except.ok ⟨none, sleeps, attemptNo⟩
  | left + 1 =>
    tryCatchE (attemptCall (upstream (attemptNo + 1)))
      (fun e =>
        if 0 < left then
          fetchGo upstream left (attemptNo + 1) (backoff * 2) (sleeps ++ [backoff])
        else
          Except.ok ⟨some ⟨false, 0, none, none, some e⟩, sleeps, attemptNo + 1⟩)
      (fun r =>
        if respOk r.status then
          Except.ok ⟨some ⟨true, r.status, some (r.json.getD (JVal.jstr r.text)),
            some r.text, none⟩, sleeps, attemptNo + 1⟩
        else if 500 ≤ r.status ∧ 0 < left then
          fetchGo upstream left (attemptNo + 1) (backoff * 2) (sleeps ++ [backoff])
        else
          Except.ok ⟨some ⟨false, r.status, r.json, some r.text, none⟩, sleeps, attemptNo + 1⟩)

/-- fetchWithRetry embeds fetchWithRetry of monitor.js: up to tries calls
to the upstream, sleeping the current backoff and doubling it after every
transient failure that still has budget left.  The initial backoff is the
INITIAL_BACKOFF_MS configuration value. -/
def fetchWithRetry (upstream : Nat → UpOutcome) (tries : Nat) (initialBackoff : Nat) :
    Except String RetryTrace :=
  fetchGo upstream tries 0 initialBackoff []

/-- transient classifies an upstream outcome as retryable: a thrown
network-level failure, or a response with HTTP status at least 500. -/
def transient (o : UpOutcome) : Bool :=
  match o with
  | UpOutcome.thrown _ => true
  | UpOutcome.resp r => decide (500 ≤ r.status)

end Monitor

/-- C1: for maxAttempts 3 and initial backoff 500 against an upstream that
permanently answers HTTP 503 (with arbitrary bodies), fetchWithRetry makes
3 calls, sleeps 500 then 1000 between them (so the delays before attempts
1, 2, 3 are 0, 500 and 1000, doubling after each failure), and returns a
FetchResult with ok false and status 503. -/
theorem C1_backoff_growth (j : Nat → Option JVal) (t : Nat → String) :
    Monitor.fetchWithRetry (fun n => Monitor.UpOutcome.resp ⟨503, j n, t n⟩) 3 500 =
      Except.ok ⟨some ⟨false, 503, j 3, some (t 3), none⟩, [500, 1000], 3⟩ := by
  rfl

/-- respOk_eq_false_of_ge500 records that a 5xx status is never a success
status of node-fetch. -/
theorem respOk_eq_false_of_ge500 (s : Nat) (h : 500 ≤ s) : Monitor.respOk s = false := by
  have h2 : ¬ (s < 300) := by omega
  simp [Monitor.respOk, h2]

/-- fetchGo_transient_only shows that whenever the retry loop went on to a
further attempt after attempt n, the outcome of attempt n was transient:
either a thrown network-level failure or an HTTP status of at least 500. -/
theorem fetchGo_transient_only (upstream : Nat → Monitor.UpOutcome) :
    ∀ (left a0 b0 : Nat) (s0 : List Nat) (t : Monitor.RetryTrace),
      Monitor.fetchGo upstream left a0 b0 s0 = Except.ok t →
      ∀ n, a0 < n → n < t.calls → Monitor.transient (upstream n) = true := by
  intro left
  induction left with
  | zero =>
    intro a0 b0 s0 t h n hlt hcalls
    simp only [Monitor.fetchGo, Except.ok.injEq] at h
    subst h
    simp only at hcalls
    omega
  | succ left ih =>
    intro a0 b0 s0 t h n hlt hcalls
    simp only [Monitor.fetchGo] at h
    cases hu : upstream (a0 + 1) with
    | thrown e =>
      rw [hu] at h
      simp only [Monitor.attemptCall, Monitor.tryCatchE] at h
      by_cases hl : 0 < left
      · rw [if_pos hl] at h
        rcases Nat.lt_or_ge (a0 + 1) n with h1 | h2
        · exact ih (a0 + 1) (b0 * 2) (s0 ++ [b0]) t h n h1 hcalls
        · have hn : n = a0 + 1 := by omega
          rw [hn, hu]
          rfl
      · rw [if_neg hl] at h
        simp only [Except.ok.injEq] at h
        subst h
        simp only at hcalls
        omega
    | resp r =>
      rw [hu] at h
      simp only [Monitor.attemptCall, Monitor.tryCatchE] at h
      by_cases hok : Monitor.respOk r.status
      · rw [if_pos hok] at h
        simp only [Except.ok.injEq] at h
        subst h
        simp only at hcalls
        omega
      · rw [if_neg hok] at h
        by_cases hc : 500 ≤ r.status ∧ 0 < left
        · rw [if_pos hc] at h
          rcases Nat.lt_or_ge (a0 + 1) n with h1 | h2
          · exact ih (a0 + 1) (b0 * 2) (s0 ++ [b0]) t h n h1 hcalls
          · have hn : n = a0 + 1 := by omega
            rw [hn, hu]
            simp [Monitor.transient, hc.1]
        · rw [if_neg hc] at h
          simp only [Except.ok.injEq] at h
          subst h
          simp only at hcalls
          omega

/-- C2: a failure is retried only when transient.  First conjunct: whenever
fetchWithRetry performed a further upstream call after attempt n, attempt n
had thrown or answered with status at least 500.  Second conjunct: an
upstream answering HTTP 404 on the first attempt causes exactly one
upstream call, with the 404 result returned terminally, for every attempt
budget of at least one. -/
theorem C2_retry_only_transient :
    (∀ (upstream : Nat → Monitor.UpOutcome) (tries backoff0 : Nat) (t : Monitor.RetryTrace),
        Monitor.fetchWithRetry upstream tries backoff0 = Except.ok t →
        ∀ n, 1 ≤ n → n < t.calls → Monitor.transient (upstream n) = true)
    ∧ (∀ (upstream : Nat → Monitor.UpOutcome) (tries backoff0 : Nat) (t : Monitor.RetryTrace)
        (j : Option JVal) (s : String),
        upstream 1 = Monitor.UpOutcome.resp ⟨404, j, s⟩ →
        1 ≤ tries →
        Monitor.fetchWithRetry upstream tries backoff0 = Except.ok t →
        t.calls = 1 ∧ t.result = some ⟨false, 404, j, some s, none⟩) := by
  constructor
  · intro upstream tries backoff0 t h n h1 h2
    exact fetchGo_transient_only upstream tries 0 backoff0 [] t h n h1 h2
  · intro upstream tries backoff0 t j s h404 htries h
    obtain ⟨left, rfl⟩ : ∃ l, tries = l + 1 := ⟨tries - 1, by omega⟩
    simp only [Monitor.fetchWithRetry, Monitor.fetchGo, Nat.zero_add] at h
    rw [h404] at h
    simp only [Monitor.attemptCall, Monitor.tryCatchE] at h
    have hok : Monitor.respOk 404 = false := by decide
    rw [hok] at h
    have hc : ¬ ((500:Nat) ≤ 404 ∧ 0 < left) := by omega
    simp only [Bool.false_eq_true, if_false, if_neg hc, Except.ok.injEq] at h
    subst h
    exact ⟨rfl, rfl⟩

/-- C2 witness: for the concrete upstream that always answers 404 with an
empty body, three allowed attempts and backoff 500, the hypotheses of the
theorem hold and exactly one call is made; for the permanently failing 503
upstream of C1, the attempt that was retried was indeed transient. -/
theorem C2_retry_only_transient_witness :
    ((1:Nat) ≤ 3 ∧
      (⟨some ⟨false, 404, none, some "nf", none⟩, [], 1⟩ : Monitor.RetryTrace).calls = 1) ∧
      Monitor.transient (Monitor.UpOutcome.resp ⟨503, none, "e"⟩) = true := by
  refine ⟨⟨by decide, ?_⟩, ?_⟩
  · exact (C2_retry_only_transient.2 (fun _ => Monitor.UpOutcome.resp ⟨404, none, "nf"⟩)
      3 500 _ none "nf" rfl (by decide) rfl).1
  · exact C2_retry_only_transient.1 (fun n => Monitor.UpOutcome.resp ⟨503, none, "e"⟩)
      3 500 ⟨some ⟨false, 503, none, some "e", none⟩, [500, 1000], 3⟩ rfl 2 (by decide) (by decide)

/-- resultOkFlag observes a fetchWithRetry outcome: none when the call
raised or returned undefined, otherwise the ok flag of the returned result. -/
def resultOkFlag (x : Except String Monitor.RetryTrace) : Option Bool :=
  match x with
  | Except.ok t => t.result.map (fun r => r.ok)
  | Except.error _ => none

/-- fetchGo_total shows the retry loop always returns normally: every
thrown upstream outcome is caught and converted into a value. -/
theorem fetchGo_total (upstream : Nat → Monitor.UpOutcome) :
    ∀ (left a0 b0 : Nat) (s0 : List Nat),
      ∃ t, Monitor.fetchGo upstream left a0 b0 s0 = Except.ok t := by
  intro left
  induction left with
  | zero => intro a0 b0 s0; exact ⟨⟨none, s0, a0⟩, rfl⟩
  | succ left ih =>
    intro a0 b0 s0
    simp only [Monitor.fetchGo]
    cases hu : upstream (a0 + 1) with
    | thrown e =>
      simp only [Monitor.attemptCall, Monitor.tryCatchE]
      by_cases hl : 0 < left
      · rw [if_pos hl]; exact ih (a0 + 1) (b0 * 2) (s0 ++ [b0])
      · rw [if_neg hl]; exact ⟨_, rfl⟩
    | resp r =>
      simp only [Monitor.attemptCall, Monitor.tryCatchE]
      by_cases hok : Monitor.respOk r.status
      · rw [if_pos hok]; exact ⟨_, rfl⟩
      · rw [if_neg hok]
        by_cases hc : 500 ≤ r.status ∧ 0 < left
        · rw [if_pos hc]; exact ih (a0 + 1) (b0 * 2) (s0 ++ [b0])
        · rw [if_neg hc]; exact ⟨_, rfl⟩

/-- fetchGo_exhaust shows that when every attempt still permitted fails
transiently, the loop returns a result object with ok false. -/
theorem fetchGo_exhaust (upstream : Nat → Monitor.UpOutcome)
    (htrans : ∀ n, Monitor.transient (upstream n) = true) :
    ∀ (left a0 b0 : Nat) (s0 : List Nat),
      1 ≤ left →
      resultOkFlag (Monitor.fetchGo upstream left a0 b0 s0) = some false := by
  intro left
  induction left with
  | zero => intro a0 b0 s0 h; omega
  | succ left ih =>
    intro a0 b0 s0 _
    simp only [Monitor.fetchGo]
    cases hu : upstream (a0 + 1) with
    | thrown e =>
      simp only [Monitor.attemptCall, Monitor.tryCatchE]
      by_cases hl : 0 < left
      · rw [if_pos hl]; exact ih (a0 + 1) (b0 * 2) (s0 ++ [b0]) hl
      · rw [if_neg hl]; rfl
    | resp r =>
      have h5 : 500 ≤ r.status := by
        have := htrans (a0 + 1)
        rw [hu] at this
        simpa [Monitor.transient] using this
      simp only [Monitor.attemptCall, Monitor.tryCatchE]
      rw [respOk_eq_false_of_ge500 r.status h5]
      simp only [Bool.false_eq_true, if_false]
      by_cases hl : 0 < left
      · rw [if_pos ⟨h5, hl⟩]; exact ih (a0 + 1) (b0 * 2) (s0 ++ [b0]) hl
      · have hc : ¬ ((500:Nat) ≤ r.status ∧ 0 < left) := fun hx => hl hx.2
        rw [if_neg hc]; rfl

/-- C3: fetchWithRetry never propagates an exception, for any attempt
budget, backoff and sequence of upstream outcomes; and when the budget is
at least one and the upstream fails transiently forever, exhaustion is
communicated by a returned result whose ok flag is false. -/
theorem C3_never_raises :
    (∀ (upstream : Nat → Monitor.UpOutcome) (tries backoff0 : Nat),
        ∃ t, Monitor.fetchWithRetry upstream tries backoff0 = Except.ok t)
    ∧ (∀ (upstream : Nat → Monitor.UpOutcome) (tries backoff0 : Nat),
        1 ≤ tries →
        (∀ n, Monitor.transient (upstream n) = true) →
        resultOkFlag (Monitor.fetchWithRetry upstream tries backoff0) = some false) := by
  constructor
  · intro upstream tries backoff0
    exact fetchGo_total upstream tries 0 backoff0 []
  · intro upstream tries backoff0 htries htrans
    exact fetchGo_exhaust upstream htrans tries 0 backoff0 [] htries

/-- C3 witness: for the concrete upstream whose fetch always throws, a
budget of two attempts satisfies the hypotheses and the returned result
reports ok false without any exception escaping. -/
theorem C3_never_raises_witness :
    (1:Nat) ≤ 2 ∧
      resultOkFlag (Monitor.fetchWithRetry (fun _ => Monitor.UpOutcome.thrown "boom") 2 500) =
        some false :=
  ⟨by decide, C3_never_raises.2 (fun _ => Monitor.UpOutcome.thrown "boom") 2 500
    (by decide) (fun _ => rfl)⟩

namespace Monitor

/-- dedupeAllowed embeds dedupeAllowed of monitor.js.  The lastSent map is
a function from keys to the timestamp of the last delivered notification;
a missing entry reads as 0 through the JavaScript expression
lastSent.get(key) or-else 0.  When the interval has elapsed the current
time is recorded for the key and true is returned, otherwise the map is
untouched and false is returned.  The minimum interval is the
MIN_SEND_INTERVAL_MS configuration value. -/
def dedupeAllowed (lastSent : String → Option Int) (minInterval : Int) (key : String)
    (now : Int) : Bool × (String → Option Int) :=
  if minInterval ≤ now - ((lastSent key).getD 0) then
    (true, fun k => if k = key then some now else lastSent k)
  else
    (false, lastSent)

/-- incrConsec embeds incrConsec of monitor.js: the per-key consecutive
error counter is bumped by one, reading a missing entry as 0. -/
def incrConsec (m : String → Option Nat) (key : String) : String → Option Nat :=
  fun k => if k = key then some ((m key).getD 0 + 1) else m k

/-- resetConsec embeds resetConsec of monitor.js: the per-key consecutive
error counter is set to 0. -/
def resetConsec (m : String → Option Nat) (key : String) : String → Option Nat :=
  fun k => if k = key then some 0 else m k

/-- fieldLookup is JavaScript property access on a parsed JSON object. -/
def fieldLookup (fs : List (String × JVal)) (name : String) : Option JVal :=
  (fs.find? (fun p => p.1 == name)).map (fun p => p.2)

/-- isDeprecatedBody is the condition of handleErrorResponse in monitor.js
that recognises the deprecated-API body: the data of the failed result is
an object whose code property is strictly equal to the number 40001.  The
JavaScript fallbacks of body to rawText, error or the empty string are
strings, never objects, so only the parsed data can satisfy the test. -/
def isDeprecatedBody (r : FetchResult) : Bool :=
  match r.data with
  | some (JVal.jobj fs) =>
    match fieldLookup fs "code" with
    | some (JVal.jnum n) => n == 40001
    | _ => false
  | _ => false

/-- isSuccessFalse is the checkFunding test for an HTTP-success body that
carries an application-level failure flag: body.success strictly equal to
the boolean false. -/
def isSuccessFalse (d : Option JVal) : Bool :=
  match d with
  | some (JVal.jobj fs) =>
    match fieldLookup fs "success" with
    | some (JVal.jbool false) => true
    | _ => false
  | _ => false

/-- statusTag is the key fragment resp.status or-else "network" used for
the dedupe key of error alerts in handleErrorResponse. -/
def statusTag (r : FetchResult) : String :=
  if r.status = 0 then "network" else toString r.status

/-- MonState is the module-level mutable state of monitor.js: the dedupe
map lastSent, the consecutiveErrors map, and the deprecatedStopped flag. -/
structure MonState : Type where
  lastSent : String → Option Int
  consec : String → Option Nat
  deprecatedStopped : Bool

/-- Notif tags the kinds of Discord notification monitor.js can emit from
a funding check: the one-time API-deprecated embed, a deduped error alert,
the success-false warning, and a deduped funding update. -/
inductive Notif : Type where
  | deprecated : Notif
  | errorAlert : String → Notif
  | successFalse : Notif
  | fundingUpdate : String → Notif

/-- countDeprecated counts the API-deprecated notifications in a trace. -/
def countDeprecated : List Notif → Nat
  | [] => 0
  | Notif.deprecated :: rest => countDeprecated rest + 1
  | _ :: rest => countDeprecated rest

/-- handleErrorResponse embeds handleErrorResponse of monitor.js for the
funding resource: bump the consecutive counter; on a deprecated body send
the deprecated embed only if the flag was not yet set, and latch the flag;
otherwise alert through the deduplicator once the counter reaches the
threshold (ERROR_THRESHOLD_BEFORE_ALERT). -/
def handleErrorResponse (minInterval : Int) (threshold : Nat) (st : MonState)
    (resp : FetchResult) (now : Int) : MonState × List Notif :=
  let consec2 := incrConsec st.consec "funding"
  if isDeprecatedBody resp then
    if st.deprecatedStopped then
      ({ st with consec := consec2 }, [])
    else
      ({ st with consec := consec2, deprecatedStopped := true }, [Notif.deprecated])
  else if threshold ≤ (consec2 "funding").getD 0 then
    let key := "error_funding_" ++ statusTag resp
    let d := dedupeAllowed st.lastSent minInterval key now
    ({ st with consec := consec2, lastSent := d.2 },
      if d.1 then [Notif.errorAlert key] else [])
  else
    ({ st with consec := consec2 }, [])

/-- checkFunding embeds one checkFunding call of monitor.js, given the
FetchResult the inner fetchWithRetry call produced.  The third component
records whether an upstream request was issued at all (false exactly on
the deprecatedStopped early return).  The funding-rate extraction uses
JavaScript floating-point rounding, so it is abstracted as the oracle
extract from the parsed body to the rounded rate used in the dedupe key. -/
def checkFunding (extract : Option JVal → Option Int) (minInterval : Int) (threshold : Nat)
    (st : MonState) (resp : FetchResult) (now : Int) : MonState × List Notif × Bool :=
  if st.deprecatedStopped then
    (st, [], false)
  else if resp.ok then
    let st1 : MonState := { st with consec := resetConsec st.consec "funding" }
    if isSuccessFalse resp.data then
      let d := dedupeAllowed st1.lastSent minInterval "api_success_false" now
      ({ st1 with lastSent := d.2 }, if d.1 then [Notif.successFalse] else [], true)
    else
      match extract resp.data with
      | some v =>
        let key := "funding_ok_" ++ toString v
        let d := dedupeAllowed st1.lastSent minInterval key now
        ({ st1 with lastSent := d.2 }, if d.1 then [Notif.fundingUpdate key] else [], true)
      | none => (st1, [], true)
  else
    let h := handleErrorResponse minInterval threshold st resp now
    (h.1, h.2, true)

/-- runMonitor folds checkFunding over a sequence of ticks, each tick
being the fetch outcome the upstream would deliver and the current time,
collecting all emitted notifications in order. -/
def runMonitor (extract : Option JVal → Option Int) (minInterval : Int) (threshold : Nat) :
    MonState → List (FetchResult × Int) → MonState × List Notif
  | st, [] => (st, [])
  | st, (resp, now) :: rest =>
    let s := checkFunding extract minInterval threshold st resp now
    let r := runMonitor extract minInterval threshold s.1 rest
    (r.1, s.2.1 ++ r.2)

end Monitor

/-- C5 counterexample: the claim states that dedupeAllowed returns true
whenever no prior send exists for the key, for every current time.  With
the empty lastSent map (so no prior send exists for key "k"), the default
interval 600000 and current time 0, the code returns false: a missing
entry is read as timestamp 0 rather than as an unconditional pass. -/
theorem C5_dedupe_iff_counterexample :
    ¬ (((Monitor.dedupeAllowed (fun _ => none) 600000 "k" 0).1 = true) ↔
        ((fun _ : String => (none : Option Int)) "k" = none ∨
          ∃ t : Int, (fun _ : String => (none : Option Int)) "k" = some t ∧
            600000 ≤ 0 - t)) := by
  intro h
  exact absurd (h.mpr (Or.inl rfl)) (by decide)

/-- C5 amended: dedupeAllowed returns true exactly when
now - prev is at least minInterval, where prev is the recorded lastSentAt
of the key or 0 when no prior send exists (so a never-fired key passes
exactly when now itself is at least minInterval, which holds for every
realistic epoch-millisecond clock).  On true it records now for the key
and touches no other key; on false the map is unchanged; consequently two
consecutive allowed sends for the same key are at least minInterval apart. -/
theorem C5_dedupe_characterisation :
    (∀ (ls : String → Option Int) (minI : Int) (key : String) (now : Int),
        ((Monitor.dedupeAllowed ls minI key now).1 = true ↔
          minI ≤ now - ((ls key).getD 0)))
    ∧ (∀ (ls : String → Option Int) (minI : Int) (key : String) (now : Int),
        (Monitor.dedupeAllowed ls minI key now).1 = true →
        (Monitor.dedupeAllowed ls minI key now).2 key = some now ∧
          ∀ k, k ≠ key → (Monitor.dedupeAllowed ls minI key now).2 k = ls k)
    ∧ (∀ (ls : String → Option Int) (minI : Int) (key : String) (now : Int),
        (Monitor.dedupeAllowed ls minI key now).1 = false →
        (Monitor.dedupeAllowed ls minI key now).2 = ls)
    ∧ (∀ (ls : String → Option Int) (minI : Int) (key : String) (t1 t2 : Int),
        (Monitor.dedupeAllowed ls minI key t1).1 = true →
        (Monitor.dedupeAllowed (Monitor.dedupeAllowed ls minI key t1).2 minI key t2).1 = true →
        minI ≤ t2 - t1) := by
  refine ⟨?_, ?_, ?_, ?_⟩
  · intro ls minI key now
    unfold Monitor.dedupeAllowed
    by_cases h : minI ≤ now - ((ls key).getD 0)
    · rw [if_pos h]; simpa using h
    · rw [if_neg h]; simpa using h
  · intro ls minI key now h
    unfold Monitor.dedupeAllowed at h ⊢
    by_cases hc : minI ≤ now - ((ls key).getD 0)
    · rw [if_pos hc]
      exact ⟨by simp, fun k hk => by simp [hk]⟩
    · rw [if_neg hc] at h; simp at h
  · intro ls minI key now h
    unfold Monitor.dedupeAllowed at h ⊢
    by_cases hc : minI ≤ now - ((ls key).getD 0)
    · rw [if_pos hc] at h; simp at h
    · rw [if_neg hc]
  · intro ls minI key t1 t2 h1 h2
    have hupd : (Monitor.dedupeAllowed ls minI key t1).2 key = some t1 := by
      unfold Monitor.dedupeAllowed at h1 ⊢
      by_cases hc : minI ≤ t1 - ((ls key).getD 0)
      · rw [if_pos hc]; simp
      · rw [if_neg hc] at h1; simp at h1
    set m2 := (Monitor.dedupeAllowed ls minI key t1).2 with hm2
    unfold Monitor.dedupeAllowed at h2
    rw [hupd] at h2
    by_cases hc2 : minI ≤ t2 - ((some t1).getD 0)
    · simpa using hc2
    · rw [if_neg hc2] at h2; simp at h2

/-- C5 witness: with the empty map, interval 10 and the two call times 100
and 120, both calls pass the deduplicator and the amended theorem yields
that the two allowed sends are at least the interval apart. -/
theorem C5_dedupe_characterisation_witness : (10:Int) ≤ 120 - 100 :=
  C5_dedupe_characterisation.2.2.2 (fun _ => none) 10 "k" 100 120 (by decide) (by decide)

/-- failResult503 is a concrete failed FetchResult: terminal HTTP 503. -/
def failResult503 : Monitor.FetchResult := ⟨false, 503, none, some "upstream boom", none⟩

/-- okResult200 is a concrete successful FetchResult with an empty object body. -/
def okResult200 : Monitor.FetchResult := ⟨true, 200, some (JVal.jobj []), some "", none⟩

/-- monStart is the initial monitor state: empty maps, flag unset. -/
def monStart : Monitor.MonState := ⟨fun _ => none, fun _ => none, false⟩

/-- noExtract is the extraction oracle that finds no funding rate. -/
def noExtract : Option JVal → Option Int := fun _ => none

/-- C6: the consecutive-failure counter is bumped by exactly one on every
failed fetch, other keys untouched; any single success resets it to 0
regardless of the streak; and in the concrete run of three failures, one
success and one further failure the counter ends at 0 after the success
and at 1 (not 4) after the further failure. -/
theorem C6_consecutive_counter :
    (∀ (m : String → Option Nat) (k : String),
        Monitor.incrConsec m k k = some ((m k).getD 0 + 1))
    ∧ (∀ (m : String → Option Nat) (k k2 : String), k2 ≠ k →
        Monitor.incrConsec m k k2 = m k2)
    ∧ (∀ (m : String → Option Nat) (k : String), Monitor.resetConsec m k k = some 0)
    ∧ (∀ (extract : Option JVal → Option Int) (minI : Int) (thr : Nat)
        (st : Monitor.MonState) (resp : Monitor.FetchResult) (now : Int),
        st.deprecatedStopped = false → resp.ok = false →
        ((Monitor.checkFunding extract minI thr st resp now).1).consec "funding" =
          some ((st.consec "funding").getD 0 + 1))
    ∧ (∀ (extract : Option JVal → Option Int) (minI : Int) (thr : Nat)
        (st : Monitor.MonState) (resp : Monitor.FetchResult) (now : Int),
        st.deprecatedStopped = false → resp.ok = true →
        ((Monitor.checkFunding extract minI thr st resp now).1).consec "funding" = some 0)
    ∧ ((Monitor.runMonitor noExtract 600000 2 monStart
          [(failResult503, 1000), (failResult503, 2000), (failResult503, 3000),
            (okResult200, 4000)]).1.consec "funding" = some 0)
    ∧ ((Monitor.runMonitor noExtract 600000 2 monStart
          [(failResult503, 1000), (failResult503, 2000), (failResult503, 3000),
            (okResult200, 4000), (failResult503, 5000)]).1.consec "funding" = some 1) := by
  refine ⟨?_, ?_, ?_, ?_, ?_, ?_, ?_⟩
  · intro m k; simp [Monitor.incrConsec]
  · intro m k k2 hk; simp [Monitor.incrConsec, hk]
  · intro m k; simp [Monitor.resetConsec]
  · intro extract minI thr st resp now hdep hok
    simp only [Monitor.checkFunding, hdep, hok, Bool.false_eq_true, if_false]
    simp only [Monitor.handleErrorResponse]
    split
    · rw [hdep]
      simp [Monitor.incrConsec]
    · split
      · simp [Monitor.incrConsec]
      · simp [Monitor.incrConsec]
  · intro extract minI thr st resp now hdep hok
    simp only [Monitor.checkFunding, hdep, hok, Bool.false_eq_true, if_false, if_true]
    split
    · simp [Monitor.resetConsec]
    · split
      · simp [Monitor.resetConsec]
      · simp [Monitor.resetConsec]
  · decide
  · decide

/-- C6 witness: from the fresh state a concrete failed check raises the
funding counter to 1 and a concrete successful check resets it to 0, and
incrementing for one key leaves another key untouched. -/
theorem C6_consecutive_counter_witness :
    ((Monitor.checkFunding noExtract 600000 2 monStart failResult503 1000).1).consec "funding"
        = some 1 ∧
      ((Monitor.checkFunding noExtract 600000 2 monStart okResult200 1000).1).consec "funding"
        = some 0 ∧
      Monitor.incrConsec (fun _ => none) "funding" "other" = none :=
  ⟨C6_consecutive_counter.2.2.2.1 noExtract 600000 2 monStart failResult503 1000 rfl rfl,
    C6_consecutive_counter.2.2.2.2.1 noExtract 600000 2 monStart okResult200 1000 rfl rfl,
    C6_consecutive_counter.2.1 (fun _ => none) "funding" "other" (by decide)⟩

/-- checkFunding_skip: once the deprecated flag is latched, a funding
check returns at once, leaving state untouched, emitting nothing, and
issuing no upstream request. -/
theorem checkFunding_skip (extract : Option JVal → Option Int) (minI : Int) (thr : Nat)
    (st : Monitor.MonState) (resp : Monitor.FetchResult) (now : Int)
    (h : st.deprecatedStopped = true) :
    Monitor.checkFunding extract minI thr st resp now = (st, [], false) := by
  simp [Monitor.checkFunding, h]

/-- checkFunding_dep_bound: one funding check emits at most one deprecated
notification, and only by latching the flag: the count it emits plus the
remaining allowance after the step is bounded by the allowance before it. -/
theorem checkFunding_dep_bound (extract : Option JVal → Option Int) (minI : Int) (thr : Nat)
    (st : Monitor.MonState) (resp : Monitor.FetchResult) (now : Int) :
    Monitor.countDeprecated (Monitor.checkFunding extract minI thr st resp now).2.1 +
      (if ((Monitor.checkFunding extract minI thr st resp now).1).deprecatedStopped
        then 0 else 1) ≤
      (if st.deprecatedStopped then 0 else 1) := by
  by_cases hd : st.deprecatedStopped
  · simp [checkFunding_skip extract minI thr st resp now hd, hd, Monitor.countDeprecated]
  · have hd2 : st.deprecatedStopped = false := by simpa using hd
    simp only [Monitor.checkFunding, hd2, Bool.false_eq_true, if_false]
    by_cases hok : resp.ok
    · rw [if_pos hok]
      split
      · split <;> simp [Monitor.countDeprecated, hd2]
      · split
        · split <;> simp [Monitor.countDeprecated, hd2]
        · simp [Monitor.countDeprecated, hd2]
    · rw [if_neg hok]
      simp only [Monitor.handleErrorResponse]
      split
      · simp [Monitor.countDeprecated]
      · split
        · split <;> simp [Monitor.countDeprecated, hd2]
        · simp [Monitor.countDeprecated, hd2]

/-- countDeprecated_append: the count is additive over concatenation. -/
theorem countDeprecated_append (a b : List Monitor.Notif) :
    Monitor.countDeprecated (a ++ b) =
      Monitor.countDeprecated a + Monitor.countDeprecated b := by
  induction a with
  | nil => simp [Monitor.countDeprecated]
  | cons x rest ih =>
    cases x with
    | deprecated => simp [Monitor.countDeprecated, ih]; omega
    | errorAlert k => simp [Monitor.countDeprecated, ih]
    | successFalse => simp [Monitor.countDeprecated, ih]
    | fundingUpdate k => simp [Monitor.countDeprecated, ih]

/-- runMonitor_dep_bound: over any whole run, the number of deprecated
notifications emitted is bounded by 1, and by 0 when the flag starts set. -/
theorem runMonitor_dep_bound (extract : Option JVal → Option Int) (minI : Int) (thr : Nat) :
    ∀ (ticks : List (Monitor.FetchResult × Int)) (st : Monitor.MonState),
      Monitor.countDeprecated (Monitor.runMonitor extract minI thr st ticks).2 ≤
        (if st.deprecatedStopped then 0 else 1) := by
  intro ticks
  induction ticks with
  | nil =>
    intro st
    simp [Monitor.runMonitor, Monitor.countDeprecated]
  | cons tick rest ih =>
    intro st
    obtain ⟨resp, now⟩ := tick
    simp only [Monitor.runMonitor]
    rw [countDeprecated_append]
    have h1 := checkFunding_dep_bound extract minI thr st resp now
    have h2 := ih (Monitor.checkFunding extract minI thr st resp now).1
    set a := (if ((Monitor.checkFunding extract minI thr st resp now).1).deprecatedStopped
      then (0:Nat) else 1) with ha
    set b := (if st.deprecatedStopped then (0:Nat) else 1) with hb
    omega

/-- runMonitor_flag_persist: the deprecated flag is never cleared by any
further sequence of ticks. -/
theorem runMonitor_flag_persist (extract : Option JVal → Option Int) (minI : Int) (thr : Nat) :
    ∀ (ticks : List (Monitor.FetchResult × Int)) (st : Monitor.MonState),
      st.deprecatedStopped = true →
      ((Monitor.runMonitor extract minI thr st ticks).1).deprecatedStopped = true := by
  intro ticks
  induction ticks with
  | nil => intro st h; simpa [Monitor.runMonitor] using h
  | cons tick rest ih =>
    intro st h
    obtain ⟨resp, now⟩ := tick
    simp only [Monitor.runMonitor]
    rw [checkFunding_skip extract minI thr st resp now h]
    exact ih st h

/-- C9: the deprecated latch.  First conjunct: once the flag is set, every
subsequent checkFunding call returns immediately with no notification and
no upstream request, and in particular never clears the flag.  Second
conjunct: a failed fetch whose parsed body carries code 40001 while the
flag is unset latches the flag and emits exactly the one API-deprecated
notification.  Third conjunct: the flag stays set over any whole run.
Fourth conjunct: any whole run emits at most one API-deprecated
notification, and none when the flag starts set. -/
theorem C9_deprecated_latch :
    (∀ (extract : Option JVal → Option Int) (minI : Int) (thr : Nat)
        (st : Monitor.MonState) (resp : Monitor.FetchResult) (now : Int),
        st.deprecatedStopped = true →
        Monitor.checkFunding extract minI thr st resp now = (st, [], false))
    ∧ (∀ (extract : Option JVal → Option Int) (minI : Int) (thr : Nat)
        (st : Monitor.MonState) (resp : Monitor.FetchResult) (now : Int),
        st.deprecatedStopped = false → resp.ok = false →
        Monitor.isDeprecatedBody resp = true →
        ((Monitor.checkFunding extract minI thr st resp now).1).deprecatedStopped = true ∧
          (Monitor.checkFunding extract minI thr st resp now).2.1 =
            [Monitor.Notif.deprecated] ∧
          (Monitor.checkFunding extract minI thr st resp now).2.2 = true)
    ∧ (∀ (extract : Option JVal → Option Int) (minI : Int) (thr : Nat)
        (ticks : List (Monitor.FetchResult × Int)) (st : Monitor.MonState),
        st.deprecatedStopped = true →
        ((Monitor.runMonitor extract minI thr st ticks).1).deprecatedStopped = true)
    ∧ (∀ (extract : Option JVal → Option Int) (minI : Int) (thr : Nat)
        (ticks : List (Monitor.FetchResult × Int)) (st : Monitor.MonState),
        Monitor.countDeprecated (Monitor.runMonitor extract minI thr st ticks).2 ≤
          (if st.deprecatedStopped then 0 else 1)) := by
  refine ⟨checkFunding_skip, ?_, ?_, ?_⟩
  · intro extract minI thr st resp now hflag hok hdep
    simp [Monitor.checkFunding, Monitor.handleErrorResponse, hflag, hok, hdep]
  · intro extract minI thr ticks st h
    exact runMonitor_flag_persist extract minI thr ticks st h
  · intro extract minI thr ticks st
    exact runMonitor_dep_bound extract minI thr ticks st

/-- deprecatedResult is a concrete failed FetchResult whose parsed body is
an object with code 40001. -/
def deprecatedResult : Monitor.FetchResult :=
  ⟨false, 200, some (JVal.jobj [("code", JVal.jnum 40001)]), some "x", none⟩

/-- stDep is a monitor state with the deprecated flag already latched. -/
def stDep : Monitor.MonState := ⟨fun _ => none, fun _ => none, true⟩

/-- C9 witness: with the latched state, a concrete check is skipped
entirely; and from the fresh state, a concrete 40001 failure latches the
flag and emits exactly one deprecated notification. -/
theorem C9_deprecated_latch_witness :
    Monitor.checkFunding noExtract 600000 2 stDep failResult503 0 = (stDep, [], false) ∧
      ((Monitor.checkFunding noExtract 600000 2 monStart deprecatedResult 0).1).deprecatedStopped
        = true ∧
      (Monitor.checkFunding noExtract 600000 2 monStart deprecatedResult 0).2.1 =
        [Monitor.Notif.deprecated] :=
  ⟨C9_deprecated_latch.1 noExtract 600000 2 stDep failResult503 0 rfl,
    (C9_deprecated_latch.2.1 noExtract 600000 2 monStart deprecatedResult 0 rfl rfl rfl).1,
    (C9_deprecated_latch.2.1 noExtract 600000 2 monStart deprecatedResult 0 rfl rfl rfl).2.1⟩

/-- CEntry is one cache entry: the store time and the stored payload
(fields ts and body of part_002, t and v of part_001 and part_008). -/
structure CEntry : Type where
  ts : Nat
  body : JVal

namespace Part002

/-- jsToUpper models the JavaScript toUpperCase call on a symbol string,
mapping each character to upper case (ASCII, which covers the symbols
involved; written as a structural map so that it evaluates). -/
def jsToUpper (s : String) : String :=
  String.mk (s.data.map Char.toUpper)

/-- UpErr is the error object thrown by fetchWithRetry of part_002: an
optional HTTP status, the parsed or raw body attached to the error, and
the error message. -/
structure UpErr : Type where
  status : Option Nat
  body : Option JVal
  msg : String

/-- freshBody is the success response of the /funding route of part_002:
code 0, fromCache false, and the data just fetched. -/
def freshBody (d : JVal) : JVal :=
  JVal.jobj [("code", JVal.jnum 0), ("fromCache", JVal.jbool false), ("data", d)]

/-- cachedFreshBody is the fresh-cache response of the /funding route of
part_002: code 0, fromCache true, and the cached data. -/
def cachedFreshBody (d : JVal) : JVal :=
  JVal.jobj [("code", JVal.jnum 0), ("fromCache", JVal.jbool true), ("data", d)]

/-- fallbackBody is the stale-cache fallback response of the /funding
route of part_002 when upstream failed: code "cached", fromCache true,
the cached data, and the note that upstream failed. -/
def fallbackBody (d : JVal) : JVal :=
  JVal.jobj [("code", JVal.jstr "cached"), ("fromCache", JVal.jbool true), ("data", d),
    ("note", JVal.jstr "upstream failed")]

/-- errorBody is the 502 response of the /funding route of part_002 when
upstream failed and no cache entry exists: the fixed error text and the
detail err.body or-else err.message. -/
def errorBody (e : UpErr) : JVal :=
  JVal.jobj [("error", JVal.jstr "Upstream failed and no cache"),
    ("detail", e.body.getD (JVal.jstr e.msg))]

/-- missingSymbolBody is the 400 response of part_002 for an empty symbol. -/
def missingSymbolBody : JVal :=
  JVal.jobj [("error", JVal.jstr "missing symbol")]

/-- afterCacheMiss is the tail of the /funding handler of part_002 once
the fresh-cache early return did not fire: fetch, then on success store
under the key and answer code 0, and on failure fall back to the (possibly
stale) entry read before the fetch, else answer 502. -/
def afterCacheMiss (cache : String → Option CEntry) (cacheKey : String)
    (cached : Option CEntry) (fetchOutcome : Except UpErr JVal) (now : Nat) :
    (Nat × JVal) × (String → Option CEntry) × Bool :=
  match fetchOutcome with
  | Except.ok data =>
    ((200, freshBody data),
      fun k => if k = cacheKey then some ⟨now, data⟩ else cache k, true)
  | Except.error e =>
    match cached with
    | some en => ((200, fallbackBody en.body), cache, true)
    | none => ((502, errorBody e), cache, true)

/-- fundingHandler embeds the GET /funding route of part_002.  The result
is the HTTP status and JSON body sent, the cache after the request, and
whether the resilient fetch was invoked.  The fetch outcome (the value
returned, or the error thrown after the retries of its fetchWithRetry)
is passed as an oracle consulted only when the handler actually fetches. -/
def fundingHandler (cache : String → Option CEntry) (ttl : Nat) (querySymbol : String)
    (fetchOutcome : Except UpErr JVal) (now : Nat) :
    (Nat × JVal) × (String → Option CEntry) × Bool :=
  if jsToUpper querySymbol = "" then ((400, missingSymbolBody), cache, false)
  else
    match cache ("funding:" ++ jsToUpper querySymbol) with
    | some e =>
      if now - e.ts < ttl then
        ((200, cachedFreshBody e.body), cache, false)
      else
        afterCacheMiss cache ("funding:" ++ jsToUpper querySymbol) (some e) fetchOutcome now
    | none =>
      afterCacheMiss cache ("funding:" ++ jsToUpper querySymbol) none fetchOutcome now

end Part002

/-- C4: when the upstream fetch fails and a cache entry for the funding
key still exists (here necessarily stale, since a fresh entry short
circuits before any fetch), the handler answers 200 with the cached
payload tagged fromCache true and the note that upstream failed, leaving
the cache unchanged; and a 502 structured failure body is produced only
when no entry exists for the key. -/
theorem C4_cache_fallback :
    (∀ (cache : String → Option CEntry) (ttl : Nat) (q : String) (e : CEntry)
        (err : Part002.UpErr) (now : Nat),
        Part002.jsToUpper q ≠ "" →
        cache ("funding:" ++ Part002.jsToUpper q) = some e →
        ¬ (now - e.ts < ttl) →
        Part002.fundingHandler cache ttl q (Except.error err) now =
          ((200, Part002.fallbackBody e.body), cache, true))
    ∧ (∀ (cache : String → Option CEntry) (ttl : Nat) (q : String)
        (out : Except Part002.UpErr JVal) (now : Nat),
        ((Part002.fundingHandler cache ttl q out now).1).1 = 502 →
        cache ("funding:" ++ Part002.jsToUpper q) = none) := by
  constructor
  · intro cache ttl q e err now hq hent hstale
    simp only [Part002.fundingHandler, hq, if_neg hq, hent]
    rw [if_neg hstale]
    rfl
  · intro cache ttl q out now h
    by_cases hq : Part002.jsToUpper q = ""
    · simp only [Part002.fundingHandler, if_pos hq] at h
      exact absurd h (by decide)
    · cases hent : cache ("funding:" ++ Part002.jsToUpper q) with
      | none => rfl
      | some e =>
        exfalso
        simp only [Part002.fundingHandler, if_neg hq, hent] at h
        by_cases hfresh : now - e.ts < ttl
        · rw [if_pos hfresh] at h
          have h2 : (200 : Nat) = 502 := h
          exact absurd h2 (by decide)
        · rw [if_neg hfresh] at h
          cases out with
          | ok data =>
            simp only [Part002.afterCacheMiss] at h
            exact absurd h (by decide)
          | error er =>
            simp only [Part002.afterCacheMiss] at h
            exact absurd h (by decide)

/-- cacheBTC is a concrete cache holding one entry for funding:BTC stored
at time 100 with payload 7. -/
def cacheBTC : String → Option CEntry :=
  fun k => if k = "funding:BTC" then some ⟨100, JVal.jnum 7⟩ else none

/-- netErr is a concrete upstream error thrown after exhausted retries. -/
def netErr : Part002.UpErr := ⟨some 503, none, "upstream 503"⟩

/-- C4 witness: with the entry for funding:BTC stored at 100, TTL 30000
and current time 40000 the entry is stale, so the failing fetch is
consulted and the handler serves the stale payload with fromCache true. -/
theorem C4_cache_fallback_witness :
    Part002.fundingHandler cacheBTC 30000 "BTC" (Except.error netErr) 40000 =
      ((200, Part002.fallbackBody (JVal.jnum 7)), cacheBTC, true) :=
  C4_cache_fallback.1 cacheBTC 30000 "BTC" ⟨100, JVal.jnum 7⟩ netErr 40000
    (by decide) rfl (by decide)

/-- C10: a fresh cache entry short circuits the /funding handler: it
answers 200 with code 0, fromCache true and the cached payload, performs
no upstream fetch and leaves the cache untouched; and conversely the
resilient fetch is invoked only when no fresh entry exists for the key. -/
theorem C10_fresh_cache_short_circuit :
    (∀ (cache : String → Option CEntry) (ttl : Nat) (q : String) (e : CEntry)
        (out : Except Part002.UpErr JVal) (now : Nat),
        Part002.jsToUpper q ≠ "" →
        cache ("funding:" ++ Part002.jsToUpper q) = some e →
        now - e.ts < ttl →
        Part002.fundingHandler cache ttl q out now =
          ((200, Part002.cachedFreshBody e.body), cache, false))
    ∧ (∀ (cache : String → Option CEntry) (ttl : Nat) (q : String)
        (out : Except Part002.UpErr JVal) (now : Nat) (e : CEntry),
        ((Part002.fundingHandler cache ttl q out now).2).2 = true →
        cache ("funding:" ++ Part002.jsToUpper q) = some e →
        ¬ (now - e.ts < ttl)) := by
  constructor
  · intro cache ttl q e out now hq hent hfresh
    simp only [Part002.fundingHandler, if_neg hq, hent]
    rw [if_pos hfresh]
  · intro cache ttl q out now e h hent hfresh
    by_cases hq : Part002.jsToUpper q = ""
    · simp only [Part002.fundingHandler, if_pos hq] at h
      simp at h
    · simp only [Part002.fundingHandler, if_neg hq, hent] at h
      rw [if_pos hfresh] at h
      simp at h

/-- C10 witness: with the entry for funding:BTC stored at 100, TTL 30000
and current time 200 the entry is fresh, so the handler answers from the
cache without invoking the fetch and without mutating the cache. -/
theorem C10_fresh_cache_short_circuit_witness :
    Part002.fundingHandler cacheBTC 30000 "BTC" (Except.error netErr) 200 =
      ((200, Part002.cachedFreshBody (JVal.jnum 7)), cacheBTC, false) :=
  C10_fresh_cache_short_circuit.1 cacheBTC 30000 "BTC" ⟨100, JVal.jnum 7⟩
    (Except.error netErr) 200 (by decide) rfl (by decide)

namespace Part001

/-- setCache embeds setCache of part_001 and part_008: store the value
under the key with the current time, overwriting any previous entry. -/
def setCache (cache : String → Option CEntry) (k : String) (v : JVal) (now : Nat) :
    String → Option CEntry :=
  fun k2 => if k2 = k then some ⟨now, v⟩ else cache k2

/-- getCache embeds getCache of part_001 and part_008: a missing entry
reads as absent; an entry older than the TTL is deleted from the map and
read as absent; otherwise the stored value is returned and the map is
left unchanged.  The result pairs the read value with the map after the
read. -/
def getCache (cache : String → Option CEntry) (ttl : Nat) (k : String) (now : Nat) :
    Option JVal × (String → Option CEntry) :=
  match cache k with
  | none => (none, cache)
  | some e =>
    if ttl < now - e.ts then
      (none, fun k2 => if k2 = k then none else cache k2)
    else
      (some e.body, cache)

end Part001

/-- C7: for an entry stored at time t under key k, a read at a time with
now - t greater than the TTL returns absent and deletes exactly that
entry as part of the read, while a read with now - t at most the TTL
returns the stored payload and leaves the map unchanged. -/
theorem C7_lazy_expiry :
    ∀ (cache : String → Option CEntry) (ttl : Nat) (k : String) (now : Nat) (e : CEntry),
      cache k = some e →
      ((ttl < now - e.ts →
          (Part001.getCache cache ttl k now).1 = none ∧
          (Part001.getCache cache ttl k now).2 k = none ∧
          ∀ k2, k2 ≠ k → (Part001.getCache cache ttl k now).2 k2 = cache k2) ∧
        (now - e.ts ≤ ttl →
          Part001.getCache cache ttl k now = (some e.body, cache))) := by
  intro cache ttl k now e hent
  constructor
  · intro hexp
    simp only [Part001.getCache, hent]
    rw [if_pos hexp]
    exact ⟨rfl, by simp, fun k2 hk2 => by simp [hk2]⟩
  · intro hfresh
    have hnot : ¬ ttl < now - e.ts := by omega
    simp only [Part001.getCache, hent]
    rw [if_neg hnot]

/-- C7 witness: for the concrete entry for funding:BTC stored at 100,
a read at time 200 with TTL 10 is expired (returning absent and deleting
the entry) and a read at time 105 with TTL 10 is fresh (returning the
stored payload and leaving the map unchanged). -/
theorem C7_lazy_expiry_witness :
    ((Part001.getCache cacheBTC 10 "funding:BTC" 200).1 = none ∧
      (Part001.getCache cacheBTC 10 "funding:BTC" 200).2 "funding:BTC" = none) ∧
      Part001.getCache cacheBTC 10 "funding:BTC" 105 = (some (JVal.jnum 7), cacheBTC) := by
  have hexp := (C7_lazy_expiry cacheBTC 10 "funding:BTC" 200 ⟨100, JVal.jnum 7⟩ rfl).1
    (by decide)
  have hfresh := (C7_lazy_expiry cacheBTC 10 "funding:BTC" 105 ⟨100, JVal.jnum 7⟩ rfl).2
    (by decide)
  exact ⟨⟨hexp.1, hexp.2.1⟩, hfresh⟩

namespace ServerJs

/-- MAPPING is the proxy path to CoinGlass v4 path table of server.js. -/
def MAPPING : List (String × String) :=
  [("/funding", "/api/futures/funding"),
   ("/funding-history", "/api/futures/funding-rate/history"),
   ("/funding-rate-history", "/api/futures/funding-rate/history"),
   ("/oi", "/api/futures/open-interest"),
   ("/healthz", "/api/futures/healthz")]

/-- ALLOWED is the safe list of proxy paths of server.js. -/
def ALLOWED : List String := ["/funding", "/funding-history", "/oi", "/healthz"]

/-- COINGLASS_BASE is the default upstream base of server.js, already
carrying no trailing slash. -/
def COINGLASS_BASE : String := "https://open-api-v4.coinglass.com"

/-- mappingLookup is the MAPPING[p] object access of buildUpstreamUrl. -/
def mappingLookup (p : String) : Option String :=
  (MAPPING.find? (fun q => q.1 == p)).map (fun q => q.2)

/-- buildUpstreamUrl embeds buildUpstreamUrl of server.js: the base, then
the mapped path (or the path itself when unmapped), then the query part. -/
def buildUpstreamUrl (p qs : String) : String :=
  COINGLASS_BASE ++ (mappingLookup p).getD p ++ qs

/-- Route lists the express routes of server.js in registration order:
the root route, the parametric /:proxyPath route, and the /healthz route
registered after it. -/
inductive Route : Type where
  | root : Route
  | proxyParam : Route
  | healthzRoute : Route

/-- routesInOrder is the registration order of the three get routes. -/
def routesInOrder : List Route := [Route.root, Route.proxyParam, Route.healthzRoute]

/-- isSingleSegment is the express match condition of the /:proxyPath
pattern: a leading slash followed by one nonempty segment with no
further slash (written over the character list so that it evaluates). -/
def isSingleSegment (path : String) : Bool :=
  match path.data with
  | [] => false
  | c :: rest => c == '/' && decide (rest ≠ []) && !(rest.contains '/')

/-- routeMatches embeds the express path matcher for each route. -/
def routeMatches (r : Route) (path : String) : Bool :=
  match r with
  | Route.root => path == "/"
  | Route.proxyParam => isSingleSegment path
  | Route.healthzRoute => path == "/healthz"

/-- Outcome describes how server.js answers a dispatched request: the
root info body, the 404 for a non-allowed proxy path, a proxied request
(carrying the upstream URL that is fetched), the local health body with
ok true and the timestamp, or no matching route. -/
inductive Outcome : Type where
  | rootInfo : Outcome
  | notAllowed : Outcome
  | proxied : String → Outcome
  | localHealth : Nat → Outcome
  | noRoute : Outcome

/-- dispatch embeds the express dispatch of server.js: the first route in
registration order whose pattern matches the path handles the request.
The parametric handler reconstructs p as the path itself (a slash plus
the captured segment), answers 404 unless p is in ALLOWED, and otherwise
fetches the upstream URL built from p and the query string. -/
def dispatch (path qs : String) (ts : Nat) : Outcome :=
  match routesInOrder.find? (fun r => routeMatches r path) with
  | some Route.root => Outcome.rootInfo
  | some Route.proxyParam =>
    if ALLOWED.contains path then Outcome.proxied (buildUpstreamUrl path qs)
    else Outcome.notAllowed
  | some Route.healthzRoute => Outcome.localHealth ts
  | none => Outcome.noRoute

end ServerJs

namespace Part000

/-- healthzBody is the body of the /healthz handler of part_000: ok true
and the current timestamp. -/
def healthzBody (ts : Nat) : JVal :=
  JVal.jobj [("ok", JVal.jbool true), ("ts", JVal.jnum ts)]

/-- Outcome describes how the part_000 server answers a request: the two
proxied data routes, the locally answered health body, or no route. -/
inductive Outcome : Type where
  | fundingProxied : Outcome
  | oiProxied : Outcome
  | localHealth : JVal → Outcome
  | noRoute : Outcome

/-- dispatch embeds the explicit routes of part_000 in registration
order: /funding, /oi, then /healthz answered locally. -/
def dispatch (path : String) (ts : Nat) : Outcome :=
  if path == "/funding" then Outcome.fundingProxied
  else if path == "/oi" then Outcome.oiProxied
  else if path == "/healthz" then Outcome.localHealth (healthzBody ts)
  else Outcome.noRoute

end Part000

/-- C8: in server.js a GET of /healthz is captured by the /:proxyPath
route registered before the dedicated /healthz handler, and since
"/healthz" is in ALLOWED the request is proxied to the upstream URL
built from the mapping (base plus /api/futures/healthz); the dedicated
handler answering ok and ts locally is unreachable.  In the part_000
draft, whose routes are all static, GET /healthz is answered locally
with the body ok true and ts, with no upstream call. -/
theorem C8_healthz_routing (ts : Nat) :
    ServerJs.dispatch "/healthz" "" ts =
      ServerJs.Outcome.proxied "https://open-api-v4.coinglass.com/api/futures/healthz" ∧
    Part000.dispatch "/healthz" ts =
      Part000.Outcome.localHealth
        (JVal.jobj [("ok", JVal.jbool true), ("ts", JVal.jnum ts)]) :=
  ⟨rfl, rfl⟩
